import Mathlib

/-!
Shallow embedding of `src/tiny_dnn/util/serialization_helper.h`: the runtime
type registry for polymorphic layer serialization in tiny-dnn.

The C++ class `serialization_helper<InputArchive, OutputArchive>` keeps three
`std::map`s (`loaders_`, `savers_`, `type_names_`) and exposes `load`, `save`
and `serialization_name`.  `detail::load_layer_impl`, `detail::save_layer_impl`
and `detail::automatic_layer_generator_register` are the per-type registration
glue; `serialize_prolog` and the `start_loading_layer` / `finish_loading_layer`
overloads are the archive adapter functions.

Modelling conventions:
* `std::type_index` / `typeid` keys are opaque comparable tokens, modelled as
  `Nat`.
* An output archive is the ordered sequence of named fields that have been
  written into it; a field value is abstracted as a `String`.
* A `layer` value carries its dynamic type token and its own serialized field
  content (opaque to this core), mirroring that the registry never inspects
  layer semantics.
* Thrown `nn_error` exceptions become `Except.error` / `SaveOutcome.raised`
  values; a null-pointer dereference (which in C++ is undefined behavior)
  becomes the distinguished outcome `SaveOutcome.undefined_behavior`.
* `std::map` is modelled as an association list with `mapFind` (`find`) and
  `mapInsert` (`operator[]` assignment, which overwrites the entry when the
  key is present and appends otherwise).
* The process-wide singleton `get_instance()` is modelled by passing the
  registry value explicitly; `save_layer_impl`'s call back into the singleton
  for `serialization_name(typeid(T))` is modelled by handing every stored
  write closure the registry's `type_names_` map at invocation time (the
  singleton consulted at call time is the same object whose `savers_` map
  dispatched the closure).
-/

/-- `std::map::find` on an association list: the value of the first entry whose
key equals `k`, or `none` when there is no such entry (`find == end`). -/
def mapFind {α β : Type} [DecidableEq α] : List (α × β) → α → Option β
  | [], _ => none
  | (k2, v) :: rest, k => if k2 = k then some v else mapFind rest k

/-- `std::map` assignment `m[k] = v`: overwrites the entry with key `k` in place
when one is present, otherwise appends a fresh entry. -/
def mapInsert {α β : Type} [DecidableEq α] : List (α × β) → α → β → List (α × β)
  | [], k, v => [(k, v)]
  | (k2, v2) :: rest, k, v =>
      if k2 = k then (k, v) :: rest else (k2, v2) :: mapInsert rest k v

/-- A value of the base abstraction `tiny_dnn::layer`: its dynamic (runtime)
type, as the `typeid` token of the concrete class, and the concrete object's
own serialized field content, opaque to the registry. -/
structure layer where
  dynTy : Nat
  body : String
deriving DecidableEq

/-- An input archive, opaque to the registry core: the named fields available
to be read. -/
abbrev InputArchive := List (String × String)

/-- An output archive: the ordered sequence of named fields written so far. -/
abbrev OutputArchive := List (String × String)

/-- The content type of the registry's `type_names_` map: `typeid` token to
registered name. -/
abbrev TypeNames := List (Nat × String)

/-- tiny_dnn's `nn_error` exception, carrying its message string. -/
inductive NNError where
  | nn_error (msg : String)
deriving DecidableEq

/-- What the custom deleter installed by `detail::load_layer_impl` does when the
returned shared handle is released: whether `t->~T()` ran and whether the raw
aligned storage was freed (`delete reinterpret_cast<ST*>(t)`). -/
structure Teardown where
  dtor_run : Bool
  storage_freed : Bool
deriving DecidableEq

/-- Result of invoking a registered construct closure.  `construction_failed`
models an exception thrown by the concrete type's own archive-driven
construction propagating out of the closure, paired with what the shared
handle's deleter did while the stack unwound. -/
inductive LoadOutcome where
  | ok (obj : layer) (td : Teardown)
  | construction_failed (td : Teardown)
deriving DecidableEq

/-- Result of a write-closure invocation or of `save` itself: the archive after
the call, a propagated `nn_error` exception, or the undefined behavior of
dereferencing a null pointer. -/
inductive SaveOutcome where
  | ok (ar : OutputArchive)
  | raised (e : NNError)
  | undefined_behavior
deriving DecidableEq

/-- A construct closure as stored in `loaders_`.  The lambda stored by
`register_loader` only round-trips the archive reference through `void*`
(`reinterpret_cast` there and back is the identity), so the stored closure
behaves exactly as the registered function. -/
abbrev LoaderFn := InputArchive → LoadOutcome

/-- A write closure as stored in `savers_`: it receives the singleton's
`type_names_` map as of invocation time (modelling `get_instance()` access from
inside `detail::save_layer_impl`), the output archive, and the base-layer
reference (the non-null `const layer *l` argument of `save`). -/
abbrev StoredSaver := TypeNames → OutputArchive → layer → SaveOutcome

/-- A write closure as passed to `register_saver`: its last argument is the
`const T*` produced by the `dynamic_cast`, which is `none` (null) when the
downcast failed. -/
abbrev SaverFn := TypeNames → OutputArchive → Option layer → SaveOutcome

/-- `dynamic_cast<const T*>(l)` on a base-layer pointer: succeeds exactly when
the referent's dynamic type is `T`, otherwise yields null (`none`). -/
def dynamicCast (T : Nat) (l : layer) : Option layer :=
  if l.dynTy = T then some l else none

/-- The registry `serialization_helper<InputArchive, OutputArchive>`: three
associative mappings. -/
structure serialization_helper where
  loaders_ : List (String × LoaderFn)
  savers_ : List (String × StoredSaver)
  type_names_ : TypeNames

/-- The freshly constructed singleton: the private constructor
`serialization_helper()` leaves all three maps empty. -/
def empty_helper : serialization_helper := ⟨[], [], []⟩

/-- `serialization_helper::register_loader`: stores (a type-erasing wrapper of)
`func` under `name` in `loaders_`; the `void*` round trip in the wrapper is the
identity on the archive. -/
def register_loader (r : serialization_helper) (name : String) (func : LoaderFn) :
    serialization_helper :=
  { r with loaders_ := mapInsert r.loaders_ name func }

/-- `serialization_helper::register_saver<T>`: stores under `name` a wrapper
that performs `dynamic_cast<const T*>` on the base pointer and hands the cast
result (possibly null) to `func`. -/
def register_saver (r : serialization_helper) (T : Nat) (name : String) (func : SaverFn) :
    serialization_helper :=
  { r with savers_ := mapInsert r.savers_ name (fun tn ar l => func tn ar (dynamicCast T l)) }

/-- `serialization_helper::register_type<T>`: `type_names_[typeid(T)] = name`. -/
def register_type (r : serialization_helper) (T : Nat) (name : String) :
    serialization_helper :=
  { r with type_names_ := mapInsert r.type_names_ T name }

/-- The `nn_error` message thrown by `load` and `save` when no generator is
registered under the requested name. -/
def generatorNotFoundMsg (layer_name : String) : String :=
  "Failed to generate layer. Generator for " ++ layer_name ++ " is not found.\n" ++
    "Please use CNN_REGISTER_LAYER_DESERIALIZER macro to register appropriate generator"

/-- The `nn_error` message thrown by `serialization_name` on an unregistered
type index. -/
def typenameNotRegisteredMsg : String := "Typename is not registered"

/-- `serialization_helper::load`: guard (`find == end` throws `nn_error`), then
`loaders_[layer_name](&ar)`.  The second component is the registry after the
call: the guard guarantees the key is present, and `std::map::operator[]` on a
present key returns the mapped value without modifying the map; the throwing
branch happens before any map access that could insert. -/
def load (r : serialization_helper) (layer_name : String) (ia : InputArchive) :
    Except NNError LoadOutcome × serialization_helper :=
  match mapFind r.loaders_ layer_name with
  | none => (Except.error (NNError.nn_error (generatorNotFoundMsg layer_name)), r)
  | some f => (Except.ok (f ia), r)

/-- `serialization_helper::save`: guard (`find == end` throws `nn_error`), then
`savers_[layer_name](&ar, l)`.  As with `load`, the present-key `operator[]`
access leaves the map unchanged, so the second component is the post-call
registry. -/
def save (r : serialization_helper) (layer_name : String) (ar : OutputArchive) (l : layer) :
    SaveOutcome × serialization_helper :=
  match mapFind r.savers_ layer_name with
  | none => (SaveOutcome.raised (NNError.nn_error (generatorNotFoundMsg layer_name)), r)
  | some f => (f r.type_names_ ar l, r)

/-- The lookup performed by `serialization_name` against a `type_names_` map
(`find` guard, then `at` on the present key). -/
def lookup_type_name (tn : TypeNames) (index : Nat) : Except NNError String :=
  match mapFind tn index with
  | none => Except.error (NNError.nn_error typenameNotRegisteredMsg)
  | some n => Except.ok n

/-- `serialization_helper::serialization_name` (a `const` member: it never
modifies the registry): throws `nn_error` when the type index is unregistered,
otherwise returns `type_names_.at(index)`. -/
def serialization_name (r : serialization_helper) (index : Nat) : Except NNError String :=
  lookup_type_name r.type_names_ index

/-- The deleter `load_layer_impl` installs on the shared handle, as a function
of the captured `valid` flag at the moment the handle is released: it runs
`t->~T()` only when `*valid` is true, and always frees the raw storage. -/
def shared_ptr_deleter (valid : Bool) : Teardown :=
  { dtor_run := valid, storage_freed := true }

/-- `detail::load_layer_impl<InputArchive, T>`: allocates raw aligned storage,
sets the shared `valid` flag to `false`, runs `T`'s archive-driven construction
(`LoadAndConstructLoadWrapper`'s serialize, abstracted as `construct`, `none`
meaning it threw), and sets `*valid = true` only after construction returned.
On failure the handle is released during unwinding with `valid` still false;
on success the eventual release sees `valid = true`. -/
def load_layer_impl (T : Nat) (construct : InputArchive → Option String) : LoaderFn :=
  fun ia =>
    match construct ia with
    | none => LoadOutcome.construction_failed (shared_ptr_deleter false)
    | some body => LoadOutcome.ok ⟨T, body⟩ (shared_ptr_deleter true)

/-- `detail::save_layer_impl<OutputArchive, T>`: writes the whole object as one
named value, the name being `serialization_name(typeid(T))` resolved against
the singleton at call time.  When the `const T *layer` argument is null (the
`dynamic_cast` in the `register_saver` wrapper failed), `*layer` dereferences a
null pointer: undefined behavior, with no null check in the source. -/
def save_layer_impl (T : Nat) : SaverFn :=
  fun tn ar l =>
    match lookup_type_name tn T with
    | Except.error e => SaveOutcome.raised e
    | Except.ok nm =>
      match l with
      | none => SaveOutcome.undefined_behavior
      | some t => SaveOutcome.ok (ar ++ [(nm, t.body)])

/-- The write closure that `automatic_layer_generator_register` ends up storing
in `savers_` for a concrete type `T` (the `register_saver` wrapper applied to
`save_layer_impl<OutputArchive, T>`). -/
def glue_saver (T : Nat) : StoredSaver :=
  fun tn ar l => save_layer_impl T tn ar (dynamicCast T l)

/-- `detail::automatic_layer_generator_register<IA, OA, T>`'s constructor body:
`register_loader(s, load_layer_impl)`, then `register_type<T>(s)`, then
`register_saver<T>(s, save_layer_impl)`, in source order.  `construct` is the
concrete type `T`'s archive-driven construction logic. -/
def automatic_layer_generator_register (T : Nat) (construct : InputArchive → Option String)
    (s : String) (r : serialization_helper) : serialization_helper :=
  register_saver (register_type (register_loader r s (load_layer_impl T construct)) T s)
    T s (save_layer_impl T)

/-- One static registration-glue instance: the concrete type's `typeid` token,
its archive-driven construction logic, and the registered name. -/
structure GlueReg where
  key : Nat
  construct : InputArchive → Option String
  lname : String

/-- A sequence of registration-glue runs (static initializers), executed in
order against a starting registry. -/
def runGlue (regs : List GlueReg) (r : serialization_helper) : serialization_helper :=
  regs.foldl (fun acc g => automatic_layer_generator_register g.key g.construct g.lname acc) r

/-- `serialize_prolog<OutputArchive, T>`: writes one field named `"type"` whose
value is `serialization_name(typeid(T))` resolved against the singleton. -/
def serialize_prolog (r : serialization_helper) (T : Nat) (ar : OutputArchive) :
    Except NNError OutputArchive :=
  match serialization_name r T with
  | Except.error e => Except.error e
  | Except.ok nm => Except.ok (ar ++ [("type", nm)])

/-- The generic template `start_loading_layer(T&)`: an empty body, so the
archive is untouched.  In C++ this overload handles every archive type without
a dedicated overload (all flat/binary archives). -/
def start_loading_layer {A : Type} (ar : A) : A := ar

/-- The generic template `finish_loading_layer(T&)`: an empty body. -/
def finish_loading_layer {A : Type} (ar : A) : A := ar

/-- cereal's `JSONInputArchive`, restricted to the node-framing state the hooks
touch: the stack of sibling positions of the entered nodes (`startNode` pushes
a fresh position, `finishNode` pops it and advances past the node in the
parent). -/
structure JSONInputArchive where
  itsStack : List Nat
deriving DecidableEq

/-- cereal `JSONInputArchive::startNode`: descend into the current node. -/
def startNode (ia : JSONInputArchive) : JSONInputArchive :=
  { itsStack := 0 :: ia.itsStack }

/-- cereal `JSONInputArchive::finishNode`: leave the current node and step past
it in the parent. -/
def finishNode (ia : JSONInputArchive) : JSONInputArchive :=
  match ia.itsStack with
  | [] => ia
  | _ :: [] => { itsStack := [] }
  | _ :: p :: rest => { itsStack := (p + 1) :: rest }

/-- The non-template overload `start_loading_layer(cereal::JSONInputArchive&)`:
`ia.startNode()`. -/
def start_loading_layer_json (ia : JSONInputArchive) : JSONInputArchive := startNode ia

/-- The non-template overload `finish_loading_layer(cereal::JSONInputArchive&)`:
`ia.finishNode()`. -/
def finish_loading_layer_json (ia : JSONInputArchive) : JSONInputArchive := finishNode ia

/-- The registration invariant asserted by the spec: every name resolvable in
`loaders_` is resolvable in `savers_` and appears as a value of `type_names_`. -/
def registryInvariant (r : serialization_helper) : Prop :=
  ∀ nm : String, (mapFind r.loaders_ nm).isSome = true →
    (mapFind r.savers_ nm).isSome = true ∧ ∃ t : Nat, mapFind r.type_names_ t = some nm

/-- Boolean check that a set of (type key, name) registrations never reuses a
type key with two different names. -/
def keysConsistentB (ps : List (Nat × String)) : Bool :=
  ps.all fun p => ps.all fun q => p.1 != q.1 || p.2 == q.2

/-- The (type key, name) pairs of a glue sequence. -/
def glueKeys (regs : List GlueReg) : List (Nat × String) :=
  regs.map fun g => (g.key, g.lname)

/-- Field-population logic used by the concrete witness registrations below:
always succeeds with the same serialized body. -/
def wConstruct : InputArchive → Option String := fun _ => some "fields"

/-- Field-population logic that always fails (its concrete load logic throws). -/
def wFailConstruct : InputArchive → Option String := fun _ => none

/-- A concrete construct closure for the witness registrations. -/
def wLoader : LoaderFn := load_layer_impl 0 wConstruct

/-- A registry with one loader registered under `"conv"`. -/
def wHelper : serialization_helper := register_loader empty_helper "conv" wLoader

/-- Two glue registrations with distinct type keys: type token 0 under
`"conv"`, type token 1 under `"dense"`. -/
def wRegs : List GlueReg := [⟨0, wConstruct, "conv"⟩, ⟨1, wConstruct, "dense"⟩]

/-- The registry produced by running the two `wRegs` glue registrations. -/
def mismatchRegistry : serialization_helper := runGlue wRegs empty_helper

/-- A registry produced by registering the same type key (0) under two
different names, `"a"` then `"b"`. -/
def dupKeyRegistry : serialization_helper :=
  runGlue [⟨0, wConstruct, "a"⟩, ⟨0, wConstruct, "b"⟩] empty_helper

theorem mapFind_mapInsert {α β : Type} [DecidableEq α] (m : List (α × β)) (k k2 : α) (v : β) :
    mapFind (mapInsert m k v) k2 = if k = k2 then some v else mapFind m k2 := by
  induction m with
  | nil => simp [mapInsert, mapFind]
  | cons hd tl ih =>
    obtain ⟨k3, v3⟩ := hd
    by_cases h3 : k3 = k
    · subst h3
      by_cases h2 : k3 = k2 <;> simp [mapInsert, mapFind, h2]
    · by_cases h2 : k3 = k2
      · subst h2
        have hk : k ≠ k3 := fun hx => h3 hx.symm
        simp [mapInsert, mapFind, h3, hk]
      · simp [mapInsert, mapFind, h3, h2, ih]

theorem mapFind_mapInsert_self {α β : Type} [DecidableEq α] (m : List (α × β)) (k : α) (v : β) :
    mapFind (mapInsert m k v) k = some v := by
  simp [mapFind_mapInsert]

theorem glue_loaders_eq (T : Nat) (c : InputArchive → Option String) (s : String)
    (r : serialization_helper) :
    (automatic_layer_generator_register T c s r).loaders_
      = mapInsert r.loaders_ s (load_layer_impl T c) := rfl

theorem glue_savers_eq (T : Nat) (c : InputArchive → Option String) (s : String)
    (r : serialization_helper) :
    (automatic_layer_generator_register T c s r).savers_
      = mapInsert r.savers_ s (glue_saver T) := rfl

theorem glue_type_names_eq (T : Nat) (c : InputArchive → Option String) (s : String)
    (r : serialization_helper) :
    (automatic_layer_generator_register T c s r).type_names_
      = mapInsert r.type_names_ T s := rfl

theorem typename_msg_ne_generator_msg (nm : String) :
    typenameNotRegisteredMsg ≠ generatorNotFoundMsg nm := by
  intro h
  have hl := congrArg String.length h
  simp only [typenameNotRegisteredMsg, generatorNotFoundMsg, String.length_append] at hl
  have h1 : ("Typename is not registered" : String).length = 26 := by decide
  have h2 : ("Failed to generate layer. Generator for " : String).length = 40 := by decide
  omega

theorem glue_saver_outcomes (T : Nat) (tn : TypeNames) (ar : OutputArchive) (l : layer) :
    glue_saver T tn ar l = SaveOutcome.raised (NNError.nn_error typenameNotRegisteredMsg) ∨
    glue_saver T tn ar l = SaveOutcome.undefined_behavior ∨
    ∃ nm2 : String, glue_saver T tn ar l = SaveOutcome.ok (ar ++ [(nm2, l.body)]) := by
  cases hm : mapFind tn T with
  | none =>
    left
    simp [glue_saver, save_layer_impl, lookup_type_name, hm]
  | some nm =>
    by_cases hd : l.dynTy = T
    · right; right
      exact ⟨nm, by simp [glue_saver, save_layer_impl, lookup_type_name, dynamicCast, hm, hd]⟩
    · right; left
      simp [glue_saver, save_layer_impl, lookup_type_name, dynamicCast, hm, hd]

theorem runGlue_savers (regs : List GlueReg) (r0 : serialization_helper) (nm : String)
    (f : StoredSaver) (hf : mapFind (runGlue regs r0).savers_ nm = some f) :
    (∃ T : Nat, f = glue_saver T) ∨ mapFind r0.savers_ nm = some f := by
  induction regs generalizing r0 with
  | nil => exact Or.inr hf
  | cons g gs ih =>
    rcases ih (automatic_layer_generator_register g.key g.construct g.lname r0) hf with h | h
    · exact Or.inl h
    · rw [glue_savers_eq, mapFind_mapInsert] at h
      by_cases he : g.lname = nm
      · simp [he] at h
        exact Or.inl ⟨g.key, h.symm⟩
      · simp only [if_neg he] at h
        exact Or.inr h

/-- C1: the spec claims that calling `save` with a base reference whose dynamic
type does not match the type registered under the name is a silent no-op that
leaves the archive in its pre-call state.  The code contradicts this: the
`register_saver` wrapper's `dynamic_cast<const T*>` yields null on the
mismatch, but `save_layer_impl` dereferences that pointer (`*layer`) with no
null check, so the call is a null-pointer dereference (undefined behavior),
not a no-op.  Evaluated at the failing input: type token 0 registered as
`"conv"` and token 1 as `"dense"` via the registration glue, then
`save(serialization_name(typeid of 0), archive, layer of dynamic type 1)`. -/
theorem save_mismatched_type_dereferences_null :
    serialization_name mismatchRegistry 0 = Except.ok "conv" ∧
    (save mismatchRegistry "conv" [] ⟨1, "payload"⟩).1 = SaveOutcome.undefined_behavior ∧
    (save mismatchRegistry "conv" [] ⟨1, "payload"⟩).1 ≠ SaveOutcome.ok [] := by
  refine ⟨rfl, rfl, ?_⟩
  intro h
  exact absurd h (by decide)

/-- C2: `load` raises the Lookup Error `nn_error` exactly when the requested
name is absent from `loaders_`; when the name is present, `load` returns
precisely the result of invoking the registered construct closure on the
archive handle. -/
theorem load_lookup_spec (r : serialization_helper) (nm : String) (ia : InputArchive) :
    ((load r nm ia).1 = Except.error (NNError.nn_error (generatorNotFoundMsg nm)) ↔
      mapFind r.loaders_ nm = none) ∧
    (∀ f : LoaderFn, mapFind r.loaders_ nm = some f →
      (load r nm ia).1 = Except.ok (f ia)) := by
  refine ⟨⟨?_, ?_⟩, ?_⟩
  · intro h
    cases hf : mapFind r.loaders_ nm with
    | none => rfl
    | some f => simp [load, hf] at h
  · intro h
    simp [load, h]
  · intro f hf
    simp [load, hf]

theorem load_lookup_spec_witness :
    (load wHelper "conv" []).1 = Except.ok (wLoader []) :=
  (load_lookup_spec wHelper "conv" []).2 wLoader rfl

/-- C3: the construct closure built by the registration glue
(`load_layer_impl`) marks the object valid only after the concrete type's
archive-driven construction completes.  If construction fails partway, the
handle's deleter runs with the valid flag still false: the raw storage is
released (`storage_freed`) without invoking the destructor (`dtor_run` is
false).  Only on a completed construction is the object returned with a
teardown that runs the destructor. -/
theorem load_layer_impl_construction_safety (T : Nat)
    (construct : InputArchive → Option String) (ia : InputArchive) :
    (construct ia = none →
      load_layer_impl T construct ia
        = LoadOutcome.construction_failed { dtor_run := false, storage_freed := true }) ∧
    (∀ body : String, construct ia = some body →
      load_layer_impl T construct ia
        = LoadOutcome.ok ⟨T, body⟩ { dtor_run := true, storage_freed := true }) := by
  refine ⟨?_, ?_⟩
  · intro h
    simp [load_layer_impl, h, shared_ptr_deleter]
  · intro body h
    simp [load_layer_impl, h, shared_ptr_deleter]

theorem load_layer_impl_construction_safety_witness :
    load_layer_impl 0 wFailConstruct []
      = LoadOutcome.construction_failed { dtor_run := false, storage_freed := true } :=
  (load_layer_impl_construction_safety 0 wFailConstruct []).1 rfl

/-- C4 counterexample: the claim fails for the glue sequence that registers the
same type key under two different names.  Running the glue for type token 0
under `"a"` and then again for token 0 under `"b"` leaves `"a"` resolvable in
`loaders_` (and `savers_`) while `type_names_` maps token 0 only to `"b"`, so
`"a"` is not in the range of `type_names_`. -/
theorem registry_invariant_counterexample : ¬ registryInvariant dupKeyRegistry := by
  intro h
  obtain ⟨-, t, ht⟩ := h "a" rfl
  simp [dupKeyRegistry, runGlue, automatic_layer_generator_register, register_loader,
    register_type, register_saver, empty_helper, mapInsert, mapFind] at ht

/-- C4 (amended): after any sequence of registration-glue runs from the empty
registry in which no type key is registered under two distinct names, every
name present in `loaders_` is also present in `savers_` and is in the range of
`type_names_` — each glue run inserts into all three mappings as one logical
unit. -/
theorem registry_invariant_of_consistent_glue (regs : List GlueReg)
    (hk : keysConsistentB (glueKeys regs) = true) :
    registryInvariant (runGlue regs empty_helper) := by
  have hk2 : ∀ g ∈ regs, ∀ g2 ∈ regs, g.key = g2.key → g.lname = g2.lname := by
    intro g hg g2 hg2 hkey
    have h1 : (g.key, g.lname) ∈ glueKeys regs :=
      List.mem_map_of_mem (fun g3 => (g3.key, g3.lname)) hg
    have h2 : (g2.key, g2.lname) ∈ glueKeys regs :=
      List.mem_map_of_mem (fun g3 => (g3.key, g3.lname)) hg2
    have hA := (List.all_eq_true.mp hk) _ h1
    have hB := (List.all_eq_true.mp hA) _ h2
    simp only [hkey, bne_self_eq_false, Bool.false_or, beq_iff_eq] at hB
    exact hB
  have main : ∀ (rs : List GlueReg) (r : serialization_helper),
      registryInvariant r →
      (∀ g ∈ rs, ∀ s : String, mapFind r.type_names_ g.key = some s → s = g.lname) →
      (∀ g ∈ rs, ∀ g2 ∈ rs, g.key = g2.key → g.lname = g2.lname) →
      registryInvariant (runGlue rs r) := by
    intro rs
    induction rs with
    | nil => intro r hr _ _; exact hr
    | cons g gs ih =>
      intro r hr hc hcons
      refine ih (automatic_layer_generator_register g.key g.construct g.lname r) ?_ ?_ ?_
      · intro nm hsome
        rw [glue_loaders_eq, mapFind_mapInsert] at hsome
        by_cases hnm : g.lname = nm
        · refine ⟨?_, g.key, ?_⟩
          · rw [glue_savers_eq, mapFind_mapInsert, if_pos hnm]
            rfl
          · rw [glue_type_names_eq, mapFind_mapInsert, if_pos rfl, hnm]
        · rw [if_neg hnm] at hsome
          obtain ⟨hsav, t, htn⟩ := hr nm hsome
          refine ⟨?_, ?_⟩
          · rw [glue_savers_eq, mapFind_mapInsert, if_neg hnm]
            exact hsav
          · by_cases ht : g.key = t
            · exfalso
              exact hnm ((hc g (List.mem_cons_self g gs) nm (ht ▸ htn)).symm)
            · exact ⟨t, by rw [glue_type_names_eq, mapFind_mapInsert, if_neg ht]; exact htn⟩
      · intro g2 hg2 s hs
        rw [glue_type_names_eq, mapFind_mapInsert] at hs
        by_cases hkey : g.key = g2.key
        · rw [if_pos hkey] at hs
          have hs2 : g.lname = s := by injection hs
          exact hs2 ▸ hcons g (List.mem_cons_self g gs) g2 (List.mem_cons_of_mem g hg2) hkey
        · rw [if_neg hkey] at hs
          exact hc g2 (List.mem_cons_of_mem g hg2) s hs
      · intro a ha b hb
        exact hcons a (List.mem_cons_of_mem g ha) b (List.mem_cons_of_mem g hb)
  refine main regs empty_helper ?_ ?_ hk2
  · intro nm h
    simp [empty_helper, mapFind] at h
  · intro g hg s hs
    simp [empty_helper, mapFind] at hs

theorem registry_invariant_of_consistent_glue_witness :
    registryInvariant (runGlue wRegs empty_helper) :=
  registry_invariant_of_consistent_glue wRegs (by decide)

/-- C5: registration is total (it is a plain function with no failing branch,
so it never fails observably) and a second registration under an
already-present name silently overwrites the prior entry: after two
registrations under the same name, only the most recent construct closure and
the most recent (wrapped) write closure are resolvable by that name, and
`load`/`save` dispatch to them. -/
theorem duplicate_registration_last_wins (r : serialization_helper) (nm : String)
    (f1 f2 : LoaderFn) (T1 T2 : Nat) (g1 g2 : SaverFn) (ia : InputArchive)
    (ar : OutputArchive) (l : layer) :
    mapFind (register_loader (register_loader r nm f1) nm f2).loaders_ nm = some f2 ∧
    mapFind (register_saver (register_saver r T1 nm g1) T2 nm g2).savers_ nm
      = some (fun tn ar2 l2 => g2 tn ar2 (dynamicCast T2 l2)) ∧
    (load (register_loader (register_loader r nm f1) nm f2) nm ia).1 = Except.ok (f2 ia) ∧
    (save (register_saver (register_saver r T1 nm g1) T2 nm g2) nm ar l).1
      = g2 r.type_names_ ar (dynamicCast T2 l) := by
  have hl : mapFind (register_loader (register_loader r nm f1) nm f2).loaders_ nm
      = some f2 := mapFind_mapInsert_self _ _ _
  have hs : mapFind (register_saver (register_saver r T1 nm g1) T2 nm g2).savers_ nm
      = some (fun tn ar2 l2 => g2 tn ar2 (dynamicCast T2 l2)) := mapFind_mapInsert_self _ _ _
  refine ⟨hl, hs, ?_, ?_⟩
  · simp [load, hl]
  · simp only [register_saver] at hs
    simp [save, register_saver, hs]

/-- C6: against a registry populated by registration-glue runs, `save` raises
the Lookup Error `nn_error` exactly when the requested name is absent from
`savers_`; when the name is present, `save` invokes the registered write
closure with the archive and the base reference (handing it the registry's
`type_names_` map, as the closure's call back into the singleton observes it)
and returns that invocation's result. -/
theorem save_lookup_spec (regs : List GlueReg) (nm : String) (ar : OutputArchive) (l : layer) :
    ((save (runGlue regs empty_helper) nm ar l).1
        = SaveOutcome.raised (NNError.nn_error (generatorNotFoundMsg nm)) ↔
      mapFind (runGlue regs empty_helper).savers_ nm = none) ∧
    (∀ f : StoredSaver, mapFind (runGlue regs empty_helper).savers_ nm = some f →
      (save (runGlue regs empty_helper) nm ar l).1
        = f (runGlue regs empty_helper).type_names_ ar l) := by
  refine ⟨⟨?_, ?_⟩, ?_⟩
  · intro h
    cases hf : mapFind (runGlue regs empty_helper).savers_ nm with
    | none => rfl
    | some f =>
      exfalso
      have hres : (save (runGlue regs empty_helper) nm ar l).1
          = f (runGlue regs empty_helper).type_names_ ar l := by
        simp [save, hf]
      rcases runGlue_savers regs empty_helper nm f hf with ⟨T, hT⟩ | habs
      · subst hT
        rw [hres] at h
        rcases glue_saver_outcomes T (runGlue regs empty_helper).type_names_ ar l with
          h1 | h1 | ⟨nm2, h1⟩
        · rw [h1] at h
          injection h with h2
          injection h2 with h3
          exact typename_msg_ne_generator_msg nm h3
        · rw [h1] at h
          exact SaveOutcome.noConfusion h
        · rw [h1] at h
          exact SaveOutcome.noConfusion h
      · simp [empty_helper, mapFind] at habs
  · intro h
    simp [save, h]
  · intro f hf
    simp [save, hf]

theorem save_lookup_spec_witness :
    (save (runGlue wRegs empty_helper) "flat" [] ⟨0, "p"⟩).1
      = SaveOutcome.raised (NNError.nn_error (generatorNotFoundMsg "flat")) :=
  (save_lookup_spec wRegs "flat" [] ⟨0, "p"⟩).1.mpr rfl

/-- C7: `serialization_name` raises the Lookup Error `nn_error` with message
`"Typename is not registered"` exactly when the type key is absent from
`type_names_`; when the key is present it returns the name currently
registered for that key (the wire discriminator). -/
theorem serialization_name_lookup_spec (r : serialization_helper) (idx : Nat) :
    (serialization_name r idx
        = Except.error (NNError.nn_error typenameNotRegisteredMsg) ↔
      mapFind r.type_names_ idx = none) ∧
    (∀ nm : String, mapFind r.type_names_ idx = some nm →
      serialization_name r idx = Except.ok nm) := by
  refine ⟨⟨?_, ?_⟩, ?_⟩
  · intro h
    cases hf : mapFind r.type_names_ idx with
    | none => rfl
    | some nm => simp [serialization_name, lookup_type_name, hf] at h
  · intro h
    simp [serialization_name, lookup_type_name, h]
  · intro nm h
    simp [serialization_name, lookup_type_name, h]

theorem serialization_name_lookup_spec_witness :
    serialization_name (register_type empty_helper 0 "conv") 0 = Except.ok "conv" :=
  (serialization_name_lookup_spec (register_type empty_helper 0 "conv") 0).2 "conv" rfl

/-- C8: for a type key registered in `type_names_`, `serialize_prolog` writes
exactly one field, named `"type"`, whose string value is the name resolved for
that key through `serialization_name`; the field is appended after the
pre-call archive contents and before anything else, so it precedes the
object's own fields, which are written by subsequent calls. -/
theorem serialize_prolog_writes_type_tag (r : serialization_helper) (T : Nat)
    (ar : OutputArchive) (nm : String) (h : mapFind r.type_names_ T = some nm) :
    serialize_prolog r T ar = Except.ok (ar ++ [("type", nm)]) := by
  simp [serialize_prolog, serialization_name, lookup_type_name, h]

theorem serialize_prolog_writes_type_tag_witness :
    serialize_prolog (register_type empty_helper 0 "conv") 0 []
      = Except.ok [("type", "conv")] :=
  serialize_prolog_writes_type_tag (register_type empty_helper 0 "conv") 0 [] "conv" rfl

/-- C9: the generic `start_loading_layer` / `finish_loading_layer` templates
(which handle every flat/binary archive type) leave the archive unchanged,
while the `cereal::JSONInputArchive` overloads perform node entry
(`startNode`, pushing a fresh node position) and node exit (`finishNode`);
exiting the node just entered restores the nesting depth, so generic calling
code may always call both hooks without branching on format. -/
theorem loading_layer_hooks_spec :
    (∀ (A : Type) (ar : A), start_loading_layer ar = ar ∧ finish_loading_layer ar = ar) ∧
    (∀ ia : JSONInputArchive,
      start_loading_layer_json ia = startNode ia ∧
      (start_loading_layer_json ia).itsStack = 0 :: ia.itsStack ∧
      finish_loading_layer_json ia = finishNode ia ∧
      (finish_loading_layer_json (start_loading_layer_json ia)).itsStack.length
        = ia.itsStack.length) := by
  refine ⟨fun A ar => ⟨rfl, rfl⟩, fun ia => ⟨rfl, rfl, rfl, ?_⟩⟩
  obtain ⟨st⟩ := ia
  cases st with
  | nil => rfl
  | cons p rest => rfl

/-- C10: the lookup operations never modify the registry.  `load` and `save`
return a post-call registry equal to the pre-call one whether they succeed or
raise the Lookup Error (in particular, looking up an absent name inserts
nothing, since the guard throws before any `operator[]` access);
`serialization_name` is a `const` member, modelled as a pure function of the
registry, and reads only `type_names_`. -/
theorem lookup_operations_preserve_registry (r : serialization_helper) (nm : String)
    (ia : InputArchive) (ar : OutputArchive) (l : layer) (idx : Nat) :
    (load r nm ia).2 = r ∧ (save r nm ar l).2 = r ∧
    serialization_name r idx = lookup_type_name r.type_names_ idx := by
  refine ⟨?_, ?_, rfl⟩
  · rcases hf : mapFind r.loaders_ nm with - | f <;> simp [load, hf]
  · rcases hf : mapFind r.savers_ nm with - | f <;> simp [save, hf]
